import Mathlib

/-!
Verification of the `ValuePredictReport` pipeline (src/ValuePredict/vp_report.py).

Shallow embedding notes.  The pipeline reads a CSV into a pandas dataframe,
drops the identifier column, trains an AutoGluon `TabularPredictor`, renders
two SHAP plots, assembles a Markdown report and writes it once.  We model:
  * the dataframe by its list of column names plus a row count (no claim
    concerns cell values);
  * the external predictor (AutoGluon) by a record of the artifacts the code
    reads from it: the feature-importance table (its index of feature names),
    the two pandas `to_markdown` renderings (opaque strings produced by the
    external library), the used-feature list and the sub-model name list;
  * the SHAP explainer by an abstract function `explain : α → β` and each
    `shap.summary_plot`/`plt.savefig` pair by a `RenderEvent` recording which
    attribution matrix, input matrix, plot type and output path it received;
  * the file system at the report path by the history of writes to it.
Failure points are translated to `Except`: `train_data[id_col]` raises
`KeyError` when the column is absent, and `next(...)` over the model-name
filter raises `StopIteration` when no name matches.
-/

namespace ValuePredict

/-- Errors the translated code can raise: pandas `KeyError` from
`self.train_data[self.id_col]`, and `StopIteration` from the unguarded
`next(m for m in predictor.model_names() if "LightGBM" in m)`. -/
inductive VPError where
  | keyError : VPError
  | stopIteration : VPError
deriving DecidableEq, Repr

/-- `os.path.join folder name` for a relative `name` under `folder`. -/
def pathJoin (a b : String) : String := a ++ "/" ++ b

/-- The instance state set up by `ValuePredictReport.__init__`. -/
structure VPState where
  nRows : Nat
  idCol : String
  label : String
  reportFolder : String
  modelPath : String
  vpReportPath : String
  evalMetric : String
  dataColumns : List String
  originalFeatures : List String
  vpReportLines : List String
deriving DecidableEq, Repr

/-- `__init__`: reads the csv (modelled by its column list and row count),
raises `KeyError` when the identifier column is absent (from
`self.train_data[self.id_col]`), drops the identifier column, and computes
`original_features = [col for col in self.train_data.columns if col != self.label]`.
No check of the label column happens here. -/
def init (columns : List String) (nRows : Nat) (id_col label report_folder : String) :
    Except VPError VPState :=
  if columns.contains id_col then
    let dropped := columns.filter (fun c => !(c == id_col))
    Except.ok
      { nRows := nRows
        idCol := id_col
        label := label
        reportFolder := report_folder
        modelPath := pathJoin report_folder "models"
        vpReportPath := pathJoin report_folder "vp_report.md"
        evalMetric := "mean_squared_error"
        dataColumns := dropped
        originalFeatures := dropped.filter (fun c => !(c == label))
        vpReportLines := [] }
  else Except.error VPError.keyError

/-- The feature-importance dataframe: one row per feature, the index holding
the feature name, sorted by the external library in descending importance.
The numeric columns are abstracted to one value. -/
structure ImportanceDf where
  rows : List (String × Int)
deriving DecidableEq, Repr

/-- pandas `DataFrame.head k`: the first `min k F` rows, as a new dataframe. -/
def df_head (k : Nat) (df : ImportanceDf) : ImportanceDf := ⟨df.rows.take k⟩

/-- pandas `df.index.tolist()`: the index (feature names) in row order. -/
def df_index_tolist (df : ImportanceDf) : List String := df.rows.map Prod.fst

/-- `recommend_features`: `feature_importance_df.head(top_k).index.tolist()`.
The Python default `top_k=30` is passed explicitly at call sites. -/
def recommend_features (feature_importance_df : ImportanceDf) (top_k : Nat) : List String :=
  df_index_tolist (df_head top_k feature_importance_df)

/-- The method call as a state transformer on its dataframe argument:
`head` and `index.tolist` allocate fresh objects and never mutate their
receiver, so the dataframe visible to the caller afterwards is unchanged. -/
def recommend_features_call (feature_importance_df : ImportanceDf) (top_k : Nat) :
    List String × ImportanceDf :=
  let importance_top := df_index_tolist (df_head top_k feature_importance_df)
  (importance_top, feature_importance_df)

/-- What the code reads off the trained AutoGluon predictor:
`feature_importance(...)` (the dataframe and its `head(30).to_markdown`
rendering), `leaderboard(...).to_markdown` rendering, `feature_metadata.get_features()`
and `model_names()`. The renderings are opaque strings of the external
library. -/
structure Predictor where
  featureImportance : ImportanceDf
  importanceHead30Md : String
  leaderboardMd : String
  usedFeatures : List String
  modelNames : List String

/-- One `shap.summary_plot(values, input, ...)` + `plt.savefig path` pair:
which attribution matrix and input matrix it was given, the `plot_type`
keyword (`none` for the default scatter, `some "bar"` for the bar chart) and
the image path written. -/
structure RenderEvent (α β : Type) where
  values : β
  input : α
  plotType : Option String
  path : String

/-- `a = b` on characters as the Bool test Python's `==` gives. -/
def charsMatchAt : List Char → List Char → Bool
  | [], _ => true
  | _ :: _, [] => false
  | a :: as, b :: bs => a == b && charsMatchAt as bs

/-- Substring containment on character lists: Python's `needle in hay`. -/
def charsContain : List Char → List Char → Bool
  | n, [] => charsMatchAt n []
  | n, b :: bs => charsMatchAt n (b :: bs) || charsContain n bs

/-- Python `"LightGBM" in m` on strings. -/
def hasLightGBM (m : String) : Bool := charsContain "LightGBM".data m.data

/-- `next(m for m in predictor.model_names() if "LightGBM" in m)`, as the
first matching name when one exists (`none` models the raised
`StopIteration`). -/
def lightgbm_model_name (names : List String) : Option String :=
  names.find? hasLightGBM

/-- `unused_features = [f for f in self.original_features if f not in used_features]`. -/
def unused_features_of (original_features used_features : List String) : List String :=
  original_features.filter (fun f => !(used_features.contains f))

/-- `generate_basic_part`. External effects already performed when it runs:
training (`TabularPredictor(...).fit`), `leaderboard`, `feature_importance`,
`feature_metadata.get_features`, `load_data_internal` — all packed into `p`
and `X`; the SHAP computation is `explain`. Returns the report lines, the
recommended features and the two plot-render events, or the `StopIteration`
raised when no sub-model name contains "LightGBM". -/
def generate_basic_part {α β : Type} (st : VPState) (p : Predictor) (X : α)
    (explain : α → β) :
    Except VPError (List String × List String × List (RenderEvent α β)) :=
  let used_features := p.usedFeatures
  let unused_features := unused_features_of st.originalFeatures used_features
  match lightgbm_model_name p.modelNames with
  | none => Except.error VPError.stopIteration
  | some _name =>
    let shap_values := explain X
    let shap_summary_plot_path := pathJoin st.reportFolder "shap_summary_plot.png"
    let shap_bar_plot_path := pathJoin st.reportFolder "shap_bar_plot.png"
    let events : List (RenderEvent α β) :=
      [⟨shap_values, X, none, shap_summary_plot_path⟩,
       ⟨shap_values, X, some "bar", shap_bar_plot_path⟩]
    let report_lines : List String :=
      ["# AutoML 預測任務報告",
       "",
       "## 🎯 預測目標",
       "- 預測欄位：**" ++ st.label ++ "**",
       "- 訓練資料筆數：" ++ toString st.nRows,
       "- 原始特徵數量：" ++ toString st.originalFeatures.length,
       "",
       "## 特徵分析",
       "### Top 30 重要特徵",
       p.importanceHead30Md,
       "",
       "| 欄位 | 說明 |",
       "|------|------|",
       "| importance | 特徵重要性分數，表示該特徵對模型預測的影響程度 |",
       "| stddev | 特徵重要性的標準差，表示估計的不確定性 |",
       "| p_value | 統計顯著性檢驗的 p 值 |",
       "| n | 用於計算的重要樣本數 |",
       "| p99_high / p99_low | 99% 置信區間上下限 |",
       "",
       "> **置信區間說明**：範圍小表示估計精確；若不包含零，則具統計顯著性。",
       "",
       "### 🧠 SHAP 模型解釋（基於 LightGBM）",
       "#### 1. SHAP Summary Plot（點圖）",
       "![summary](" ++ shap_summary_plot_path ++ ")",
       "",
       "#### 2. SHAP Feature Importance（條狀圖）",
       "![bar](" ++ shap_bar_plot_path ++ ")",
       "",
       "> SHAP 可視化幫助了解每個特徵對預測的正負影響與重要程度。",
       "",
       "## Baseline 模型表現",
       "### 模型使用特徵",
       "```",
       String.intercalate ", " used_features,
       "```",
       "",
       "### 模型未使用特徵",
       "```",
       String.intercalate ", " unused_features,
       "```",
       "",
       "### 模型 Baseline Leaderboard",
       p.leaderboardMd,
       "",
       "| 欄位 | 說明 |",
       "|------|------|",
       "| model | 模型名稱 |",
       "| score_test / score_val | 負的 RMSE（越高越好） |",
       "| pred_time_* / fit_time | 預測與訓練耗時（秒） |",
       "| stack_level | 模型堆疊層級 |",
       "| can_infer | 是否可用於推論 |"]
    let recommended_features := recommend_features p.featureImportance 30
    let report_lines := report_lines ++
      ["## 推薦特徵",
       "- 推薦特徵數量：" ++ toString recommended_features.length,
       "- 推薦特徵：",
       "  ```",
       "  " ++ String.intercalate ", " recommended_features,
       "  ```"]
    Except.ok (report_lines, recommended_features, events)

/-- The file system at `self.vp_report_path`, as the history of the writes
made to it; the current content is the last write. -/
structure FS where
  writes : List String
deriving DecidableEq, Repr

/-- The content a reader of the report path sees. -/
def FS.current (fs : FS) : Option String := fs.writes.getLast?

/-- `save_report`: one `open(path, "w")` / `f.write("\n".join(lines))`,
replacing whatever was at the path. -/
def save_report (vp_report_lines : List String) (fs : FS) : FS :=
  { writes := fs.writes ++ [String.intercalate "\n" vp_report_lines] }

/-- `generate_report`: runs `generate_basic_part`, extends
`self.vp_report_lines` with its lines and calls `save_report`. When
`generate_basic_part` raises, the exception propagates and the file system is
untouched (the only report write sits in `save_report`, after it). -/
def generate_report {α β : Type} (st : VPState) (p : Predictor) (X : α)
    (explain : α → β) (fs : FS) : Except VPError VPState × FS :=
  match generate_basic_part st p X explain with
  | Except.error e => (Except.error e, fs)
  | Except.ok (report_lines, _recommended_features, _events) =>
    let st' := { st with vpReportLines := st.vpReportLines ++ report_lines }
    (Except.ok st', save_report st'.vpReportLines fs)

/-- `n` successive calls of `generate_report` on the same instance (the same
predictor artifacts and SHAP inputs each time), stopping at the first raised
exception. -/
def generate_report_iter {α β : Type} (p : Predictor) (X : α) (explain : α → β) :
    Nat → VPState → FS → Except VPError (VPState × FS)
  | 0, st, fs => Except.ok (st, fs)
  | Nat.succ k, st, fs =>
    match generate_report st p X explain fs with
    | (Except.error e, _) => Except.error e
    | (Except.ok st', fs') => generate_report_iter p X explain k st' fs'

/-- Report section (1) of the spec: title and target description. -/
def sec1_title (label : String) : List String :=
  ["# AutoML 預測任務報告", "", "## 🎯 預測目標", "- 預測欄位：**" ++ label ++ "**"]

/-- Report section (2): dataset size and feature-count statistics. -/
def sec2_stats (nRows nFeatures : Nat) : List String :=
  ["- 訓練資料筆數：" ++ toString nRows, "- 原始特徵數量：" ++ toString nFeatures, ""]

/-- Report section (3): top-30 importance table and the static glossary of
its columns. -/
def sec3_importance (importanceMd : String) : List String :=
  ["## 特徵分析",
   "### Top 30 重要特徵",
   importanceMd,
   "",
   "| 欄位 | 說明 |",
   "|------|------|",
   "| importance | 特徵重要性分數，表示該特徵對模型預測的影響程度 |",
   "| stddev | 特徵重要性的標準差，表示估計的不確定性 |",
   "| p_value | 統計顯著性檢驗的 p 值 |",
   "| n | 用於計算的重要樣本數 |",
   "| p99_high / p99_low | 99% 置信區間上下限 |",
   "",
   "> **置信區間說明**：範圍小表示估計精確；若不包含零，則具統計顯著性。",
   ""]

/-- Report section (4): SHAP explanation, with the two image-reference lines
and the static prose. -/
def sec4_shap (summaryPath barPath : String) : List String :=
  ["### 🧠 SHAP 模型解釋（基於 LightGBM）",
   "#### 1. SHAP Summary Plot（點圖）",
   "![summary](" ++ summaryPath ++ ")",
   "",
   "#### 2. SHAP Feature Importance（條狀圖）",
   "![bar](" ++ barPath ++ ")",
   "",
   "> SHAP 可視化幫助了解每個特徵對預測的正負影響與重要程度。",
   ""]

/-- Report section (5): used-features code block, then unused-features code
block. -/
def sec5_features (used unused : List String) : List String :=
  ["## Baseline 模型表現",
   "### 模型使用特徵",
   "```",
   String.intercalate ", " used,
   "```",
   "",
   "### 模型未使用特徵",
   "```",
   String.intercalate ", " unused,
   "```",
   ""]

/-- Report section (6): leaderboard table and the static glossary of its
columns. -/
def sec6_leaderboard (leaderboardMd : String) : List String :=
  ["### 模型 Baseline Leaderboard",
   leaderboardMd,
   "",
   "| 欄位 | 說明 |",
   "|------|------|",
   "| model | 模型名稱 |",
   "| score_test / score_val | 負的 RMSE（越高越好） |",
   "| pred_time_* / fit_time | 預測與訓練耗時（秒） |",
   "| stack_level | 模型堆疊層級 |",
   "| can_infer | 是否可用於推論 |"]

/-- Report section (7): recommended-feature code block with its count line. -/
def sec7_recommend (recommended : List String) : List String :=
  ["## 推薦特徵",
   "- 推薦特徵數量：" ++ toString recommended.length,
   "- 推薦特徵：",
   "  ```",
   "  " ++ String.intercalate ", " recommended,
   "  ```"]

/-! Concrete fixtures used by the witness theorems: a four-column dataset
(`id`, two features, label `y`) and a predictor whose artifacts are small. -/

/-- The state `init ["id", "a", "b", "y"] 5 "id" "y" "out"` produces. -/
def exState : VPState :=
  { nRows := 5
    idCol := "id"
    label := "y"
    reportFolder := "out"
    modelPath := "out/models"
    vpReportPath := "out/vp_report.md"
    evalMetric := "mean_squared_error"
    dataColumns := ["a", "b", "y"]
    originalFeatures := ["a", "b"]
    vpReportLines := [] }

/-- Example trained-predictor artifacts with a LightGBM sub-model. -/
def exPredictor : Predictor :=
  { featureImportance := ⟨[("a", 2), ("b", 1)]⟩
    importanceHead30Md := "IMP_TABLE"
    leaderboardMd := "LB_TABLE"
    usedFeatures := ["a"]
    modelNames := ["KNN", "LightGBM", "WeightedEnsemble_L2"] }

/-- Example trained-predictor artifacts with no LightGBM sub-model. -/
def exPredictorNoTree : Predictor :=
  { featureImportance := ⟨[("a", 2), ("b", 1)]⟩
    importanceHead30Md := "IMP_TABLE"
    leaderboardMd := "LB_TABLE"
    usedFeatures := ["a"]
    modelNames := ["KNN", "CatBoost"] }

/-- A ten-row importance table. -/
def exTenFeatures : ImportanceDf :=
  ⟨[("f1", 10), ("f2", 9), ("f3", 8), ("f4", 7), ("f5", 6),
    ("f6", 5), ("f7", 4), ("f8", 3), ("f9", 2), ("f10", 1)]⟩

/-- `find?` returns the head of the first match when everything before it
fails the test. -/
lemma find?_first_match {γ : Type} (p : γ → Bool) (pre post : List γ) (a : γ)
    (hpre : ∀ x ∈ pre, p x = false) (ha : p a = true) :
    (pre ++ a :: post).find? p = some a := by
  induction pre with
  | nil => simpa using List.find?_cons_of_pos post ha
  | cons b bs ih =>
    have hb : p b = false := hpre b (List.mem_cons_self b bs)
    rw [List.cons_append, List.find?_cons_of_neg _ (by simp [hb])]
    exact ih (fun x hx => hpre x (List.mem_cons_of_mem b hx))

/-- `generate_basic_part` never reads `vp_report_lines`, so updating that
field does not change its result. -/
lemma generate_basic_part_lines_congr {α β : Type} (st : VPState) (L : List String)
    (p : Predictor) (X : α) (explain : α → β) :
    generate_basic_part { st with vpReportLines := L } p X explain
      = generate_basic_part st p X explain := rfl

/-- C2: `recommend_features` returns exactly the first `min k F` feature
names of the importance table, verbatim and in order; with `k = 30` and ten
features it returns exactly ten names. -/
theorem recommend_features_truncation (df : ImportanceDf) (k : Nat) :
    recommend_features df k = (df_index_tolist df).take k ∧
    (recommend_features df k).length = min k df.rows.length ∧
    (df.rows.length = 10 → (recommend_features df 30).length = 10) := by
  refine ⟨?_, ?_, ?_⟩
  · simp [recommend_features, df_index_tolist, df_head, List.map_take]
  · simp [recommend_features, df_index_tolist, df_head]
  · intro h
    simp [recommend_features, df_index_tolist, df_head, h]

/-- C2 witness: on the ten-feature table with `k = 30`, exactly ten names. -/
theorem recommend_features_truncation_witness :
    (recommend_features exTenFeatures 30).length = 10 :=
  (recommend_features_truncation exTenFeatures 30).2.2 (by decide)

/-- C10: `recommend_features` is a pure read: the dataframe the caller sees
after the call is the one passed in, the returned list is the take of the
index, and a repeated call on the dataframe returned by the first call gives
the same list. -/
theorem recommend_features_pure_read (df : ImportanceDf) (k : Nat) :
    (recommend_features_call df k).2 = df ∧
    (recommend_features_call df k).1 = recommend_features df k ∧
    (recommend_features_call df k).1 = (df.rows.map Prod.fst).take k ∧
    (recommend_features_call (recommend_features_call df k).2 k).1
      = (recommend_features_call df k).1 := by
  refine ⟨rfl, rfl, ?_, rfl⟩
  simp [recommend_features_call, df_index_tolist, df_head, List.map_take]

/-- C4 as stated is false: the constructor checks nothing about the label
column. With label `y` absent from the columns it succeeds instead of
failing with a data error. -/
theorem init_missing_label_succeeds :
    (¬ "y" ∈ (["id", "a", "b"] : List String)) ∧
    init ["id", "a", "b"] 5 "id" "y" "out" =
      Except.ok
        { nRows := 5
          idCol := "id"
          label := "y"
          reportFolder := "out"
          modelPath := "out/models"
          vpReportPath := "out/vp_report.md"
          evalMetric := "mean_squared_error"
          dataColumns := ["a", "b"]
          originalFeatures := ["a", "b"]
          vpReportLines := [] } :=
  ⟨by decide, rfl⟩

/-- C4 amended: the constructor fails with a data error (pandas `KeyError`)
exactly when the identifier column is absent; an absent label column is not
detected at construction. -/
theorem init_data_error_iff (columns : List String) (nRows : Nat)
    (id_col label folder : String) :
    (¬ id_col ∈ columns →
      init columns nRows id_col label folder = Except.error VPError.keyError) ∧
    (id_col ∈ columns →
      ∃ st, init columns nRows id_col label folder = Except.ok st) := by
  constructor
  · intro h
    simp [init, h]
  · intro h
    refine ⟨{ nRows := nRows
              idCol := id_col
              label := label
              reportFolder := folder
              modelPath := pathJoin folder "models"
              vpReportPath := pathJoin folder "vp_report.md"
              evalMetric := "mean_squared_error"
              dataColumns := columns.filter (fun c => !(c == id_col))
              originalFeatures :=
                (columns.filter (fun c => !(c == id_col))).filter (fun c => !(c == label))
              vpReportLines := [] }, ?_⟩
    simp [init, h]

/-- C4 amended witness: a missing identifier column raises, a present one
(with the label column also absent) succeeds. -/
theorem init_data_error_iff_witness :
    init ["a", "b"] 3 "id" "y" "out" = Except.error VPError.keyError ∧
    ∃ st, init ["id", "a", "b"] 5 "id" "y" "out" = Except.ok st := by
  constructor
  · exact (init_data_error_iff ["a", "b"] 3 "id" "y" "out").1 (by decide)
  · exact (init_data_error_iff ["id", "a", "b"] 5 "id" "y" "out").2 (by decide)

/-- C3: the selector takes the first sub-model name containing "LightGBM" in
enumeration order, and when no name matches, `generate_basic_part` raises
`StopIteration` (a distinguishable error) instead of skipping. -/
theorem model_selection_first_or_error (names : List String) :
    (∀ pre m post, names = pre ++ m :: post → hasLightGBM m = true →
      (∀ x ∈ pre, hasLightGBM x = false) →
      lightgbm_model_name names = some m) ∧
    ((∀ m ∈ names, hasLightGBM m = false) →
      lightgbm_model_name names = none ∧
      ∀ {α β : Type} (st : VPState) (p : Predictor) (X : α) (explain : α → β),
        p.modelNames = names →
        generate_basic_part st p X explain = Except.error VPError.stopIteration) := by
  constructor
  · intro pre m post hnames hm hpre
    subst hnames
    exact find?_first_match hasLightGBM pre post m hpre hm
  · intro hall
    have hnone : lightgbm_model_name names = none :=
      List.find?_eq_none.mpr (fun x hx => by simp [hall x hx])
    refine ⟨hnone, ?_⟩
    intro α β st p X explain hp
    unfold generate_basic_part
    rw [hp, hnone]

/-- C3 witness: among `["CatBoost", "LightGBM_r1", "LightGBMXT"]` the first
matching name is picked; with no matching name the pipeline raises
`StopIteration`. -/
theorem model_selection_first_or_error_witness :
    lightgbm_model_name ["CatBoost", "LightGBM_r1", "LightGBMXT"] = some "LightGBM_r1" ∧
    generate_basic_part exState exPredictorNoTree (0 : Nat) (fun n : Nat => n)
      = Except.error VPError.stopIteration := by
  constructor
  · exact (model_selection_first_or_error ["CatBoost", "LightGBM_r1", "LightGBMXT"]).1
      ["CatBoost"] "LightGBM_r1" ["LightGBMXT"] rfl (by decide) (by decide)
  · exact ((model_selection_first_or_error ["KNN", "CatBoost"]).2 (by decide)).2
      exState exPredictorNoTree (0 : Nat) (fun n : Nat => n) rfl

/-- C1: after a successful load, `original_features` has exactly as many
entries as there are columns other than the identifier and the label, and
for a used-feature list drawn from those features, used and unused features
partition the feature set: union equal, intersection empty. -/
theorem featureSet_partition (columns : List String) (nRows : Nat)
    (id_col label folder : String) (st : VPState) (used : List String)
    (hinit : init columns nRows id_col label folder = Except.ok st)
    (hused : ∀ f ∈ used, f ∈ st.originalFeatures) :
    st.originalFeatures.length
        = (columns.filter (fun c => !(c == label) && !(c == id_col))).length ∧
    (∀ f, f ∈ st.originalFeatures ↔
      (f ∈ used ∨ f ∈ unused_features_of st.originalFeatures used)) ∧
    (∀ f, ¬(f ∈ used ∧ f ∈ unused_features_of st.originalFeatures used)) := by
  unfold init at hinit
  by_cases hmem : columns.contains id_col
  · rw [if_pos hmem] at hinit
    injection hinit with h
    subst h
    refine ⟨?_, ?_, ?_⟩
    · simp [List.filter_filter]
    · intro f
      constructor
      · intro hf
        by_cases hu : f ∈ used
        · exact Or.inl hu
        · refine Or.inr ?_
          unfold unused_features_of
          rw [List.mem_filter]
          exact ⟨hf, by simp [hu]⟩
      · rintro (hu | hun)
        · exact hused f hu
        · exact (List.mem_filter.mp hun).1
    · rintro f ⟨hu, hun⟩
      have hnotu := (List.mem_filter.mp hun).2
      simp at hnotu
      exact hnotu hu
  · rw [if_neg hmem] at hinit
    cases hinit

/-- C1 witness: columns `id, a, b, y`, used features `a`, unused `b`. -/
theorem featureSet_partition_witness :
    ∃ st, init ["id", "a", "b", "y"] 5 "id" "y" "out" = Except.ok st ∧
      (st.originalFeatures.length
          = ((["id", "a", "b", "y"] : List String).filter
              (fun c => !(c == "y") && !(c == "id"))).length ∧
        (∀ f, f ∈ st.originalFeatures ↔
          (f ∈ ["a"] ∨ f ∈ unused_features_of st.originalFeatures ["a"])) ∧
        (∀ f, ¬(f ∈ ["a"] ∧ f ∈ unused_features_of st.originalFeatures ["a"]))) := by
  refine ⟨_, rfl, ?_⟩
  exact featureSet_partition ["id", "a", "b", "y"] 5 "id" "y" "out" _ ["a"] rfl (by decide)

/-- C7: the feature set never contains the identifier column nor the label
column, equals the loaded columns minus those two, and is left unchanged by
`generate_report` (the only state-mutating operation after construction). -/
theorem featureSet_exclusion_immutable (columns : List String) (nRows : Nat)
    (id_col label folder : String) (st : VPState)
    (hinit : init columns nRows id_col label folder = Except.ok st) :
    (¬ id_col ∈ st.originalFeatures) ∧
    (¬ label ∈ st.originalFeatures) ∧
    st.originalFeatures
        = (columns.filter (fun c => !(c == id_col))).filter (fun c => !(c == label)) ∧
    (∀ {α β : Type} (p : Predictor) (X : α) (explain : α → β) (fs : FS)
        (st' : VPState) (fs' : FS),
      generate_report st p X explain fs = (Except.ok st', fs') →
      st'.originalFeatures = st.originalFeatures ∧
      st'.idCol = st.idCol ∧ st'.label = st.label ∧
      st'.dataColumns = st.dataColumns) := by
  unfold init at hinit
  by_cases hmem : columns.contains id_col
  · rw [if_pos hmem] at hinit
    injection hinit with h
    subst h
    refine ⟨?_, ?_, rfl, ?_⟩
    · intro hid
      have := (List.mem_filter.mp (List.mem_filter.mp hid).1).2
      simp at this
    · intro hl
      have := (List.mem_filter.mp hl).2
      simp at this
    · intro α β p X explain fs st' fs' hgr
      unfold generate_report at hgr
      cases hbp : generate_basic_part
          { nRows := nRows
            idCol := id_col
            label := label
            reportFolder := folder
            modelPath := pathJoin folder "models"
            vpReportPath := pathJoin folder "vp_report.md"
            evalMetric := "mean_squared_error"
            dataColumns := columns.filter (fun c => !(c == id_col))
            originalFeatures :=
              (columns.filter (fun c => !(c == id_col))).filter (fun c => !(c == label))
            vpReportLines := [] } p X explain with
      | error e =>
        rw [hbp] at hgr
        simp at hgr
      | ok v =>
        rw [hbp] at hgr
        obtain ⟨lines, rec, events⟩ := v
        injection hgr with hst hfs
        injection hst with hst2
        subst hst2
        exact ⟨rfl, rfl, rfl, rfl⟩
  · rw [if_neg hmem] at hinit
    cases hinit

/-- C7 witness: a concrete load followed by a successful `generate_report`
keeps the feature set fixed. -/
theorem featureSet_exclusion_immutable_witness :
    ∃ st, init ["id", "a", "b", "y"] 5 "id" "y" "out" = Except.ok st ∧
      (¬ "id" ∈ st.originalFeatures) ∧ (¬ "y" ∈ st.originalFeatures) ∧
      ∃ st' fs', generate_report st exPredictor (0 : Nat) (fun n : Nat => n) ⟨[]⟩
          = (Except.ok st', fs') ∧
        st'.originalFeatures = st.originalFeatures := by
  have h := featureSet_exclusion_immutable ["id", "a", "b", "y"] 5 "id" "y" "out" _ rfl
  refine ⟨_, rfl, h.1, h.2.1, ?_⟩
  refine ⟨_, _, rfl, ?_⟩
  exact (h.2.2.2 exPredictor (0 : Nat) (fun n : Nat => n) ⟨[]⟩ _ _ rfl).1

/-- C5: the assembled report is exactly the concatenation of the seven
sections in the fixed order: title and target, dataset statistics,
importance table with glossary, SHAP section, used/unused feature blocks,
leaderboard with glossary, recommended features with count. -/
theorem report_section_order {α β : Type} (st : VPState) (p : Predictor) (X : α)
    (explain : α → β) (lines rec : List String) (events : List (RenderEvent α β))
    (h : generate_basic_part st p X explain = Except.ok (lines, rec, events)) :
    lines =
      sec1_title st.label
        ++ sec2_stats st.nRows st.originalFeatures.length
        ++ sec3_importance p.importanceHead30Md
        ++ sec4_shap (pathJoin st.reportFolder "shap_summary_plot.png")
            (pathJoin st.reportFolder "shap_bar_plot.png")
        ++ sec5_features p.usedFeatures
            (unused_features_of st.originalFeatures p.usedFeatures)
        ++ sec6_leaderboard p.leaderboardMd
        ++ sec7_recommend (recommend_features p.featureImportance 30) := by
  unfold generate_basic_part at h
  cases hm : lightgbm_model_name p.modelNames with
  | none =>
    rw [hm] at h
    cases h
  | some m =>
    rw [hm] at h
    injection h with h1
    injection h1 with hl h2
    subst hl
    rfl

/-- C5 witness: the concrete run's report lines decompose into the seven
sections. -/
theorem report_section_order_witness :
    ∃ lines rec events,
      generate_basic_part exState exPredictor (0 : Nat) (fun n : Nat => n)
          = Except.ok (lines, rec, events) ∧
      lines =
        sec1_title exState.label
          ++ sec2_stats exState.nRows exState.originalFeatures.length
          ++ sec3_importance exPredictor.importanceHead30Md
          ++ sec4_shap (pathJoin exState.reportFolder "shap_summary_plot.png")
              (pathJoin exState.reportFolder "shap_bar_plot.png")
          ++ sec5_features exPredictor.usedFeatures
              (unused_features_of exState.originalFeatures exPredictor.usedFeatures)
          ++ sec6_leaderboard exPredictor.leaderboardMd
          ++ sec7_recommend (recommend_features exPredictor.featureImportance 30) := by
  refine ⟨_, _, _, rfl, ?_⟩
  exact report_section_order exState exPredictor (0 : Nat) (fun n : Nat => n) _ _ _ rfl

/-- C8: the two SHAP renderings come from one shared attribution matrix
(`explain X`, computed once) and the same input matrix `X`, and are written
to the two fixed paths under the report folder. -/
theorem shap_renders_consistent {α β : Type} (st : VPState) (p : Predictor) (X : α)
    (explain : α → β) (lines rec : List String) (events : List (RenderEvent α β))
    (h : generate_basic_part st p X explain = Except.ok (lines, rec, events)) :
    events =
      [{ values := explain X, input := X, plotType := none,
         path := pathJoin st.reportFolder "shap_summary_plot.png" },
       { values := explain X, input := X, plotType := some "bar",
         path := pathJoin st.reportFolder "shap_bar_plot.png" }] ∧
    events.map (fun e => e.values) = [explain X, explain X] ∧
    events.map (fun e => e.input) = [X, X] := by
  unfold generate_basic_part at h
  cases hm : lightgbm_model_name p.modelNames with
  | none =>
    rw [hm] at h
    cases h
  | some m =>
    rw [hm] at h
    injection h with h1
    injection h1 with hl h2
    injection h2 with hr he
    subst he
    exact ⟨rfl, rfl, rfl⟩

/-- C8 witness: the concrete run renders both plots from the same matrices
to the fixed paths. -/
theorem shap_renders_consistent_witness :
    ∃ lines rec events,
      generate_basic_part exState exPredictor (0 : Nat) (fun n : Nat => n + 1)
          = Except.ok (lines, rec, events) ∧
      events =
        [{ values := 1, input := 0, plotType := none,
           path := pathJoin exState.reportFolder "shap_summary_plot.png" },
         { values := 1, input := 0, plotType := some "bar",
           path := pathJoin exState.reportFolder "shap_bar_plot.png" }] := by
  refine ⟨_, _, _, rfl, ?_⟩
  exact (shap_renders_consistent exState exPredictor (0 : Nat)
    (fun n : Nat => n + 1) _ _ _ rfl).1

/-- C6: when assembly raises, the exception propagates and the report path
is untouched; when it succeeds, the fully materialized document — the whole
line buffer joined by newlines — is written by exactly one write, replacing
whatever was at the path before. -/
theorem report_single_write {α β : Type} (st : VPState) (p : Predictor) (X : α)
    (explain : α → β) (fs : FS) :
    (∀ e, generate_basic_part st p X explain = Except.error e →
      generate_report st p X explain fs = (Except.error e, fs)) ∧
    (∀ lines rec events,
      generate_basic_part st p X explain = Except.ok (lines, rec, events) →
      ∃ st', generate_report st p X explain fs
          = (Except.ok st', save_report st'.vpReportLines fs) ∧
        st'.vpReportLines = st.vpReportLines ++ lines ∧
        (save_report st'.vpReportLines fs).writes
            = fs.writes ++ [String.intercalate "\n" (st.vpReportLines ++ lines)] ∧
        FS.current (save_report st'.vpReportLines fs)
            = some (String.intercalate "\n" (st.vpReportLines ++ lines))) := by
  constructor
  · intro e he
    unfold generate_report
    rw [he]
  · intro lines rec events he
    refine ⟨{ st with vpReportLines := st.vpReportLines ++ lines }, ?_, rfl, rfl, ?_⟩
    · unfold generate_report
      rw [he]
    · unfold FS.current save_report
      simp

/-- C6 witness: the concrete successful run performs exactly one write
holding the whole document; the concrete failing run (no LightGBM sub-model)
leaves the file system untouched. -/
theorem report_single_write_witness :
    (∃ lines rec events,
      generate_basic_part exState exPredictor (0 : Nat) (fun n : Nat => n)
          = Except.ok (lines, rec, events) ∧
      ∃ st', generate_report exState exPredictor (0 : Nat) (fun n : Nat => n) ⟨["old"]⟩
          = (Except.ok st', save_report st'.vpReportLines ⟨["old"]⟩) ∧
        st'.vpReportLines = exState.vpReportLines ++ lines ∧
        (save_report st'.vpReportLines ⟨["old"]⟩).writes
            = (⟨["old"]⟩ : FS).writes
              ++ [String.intercalate "\n" (exState.vpReportLines ++ lines)] ∧
        FS.current (save_report st'.vpReportLines ⟨["old"]⟩)
            = some (String.intercalate "\n" (exState.vpReportLines ++ lines))) ∧
    generate_report exState exPredictorNoTree (0 : Nat) (fun n : Nat => n) ⟨["old"]⟩
        = (Except.error VPError.stopIteration, ⟨["old"]⟩) := by
  constructor
  · refine ⟨_, _, _, rfl, ?_⟩
    exact (report_single_write exState exPredictor (0 : Nat)
      (fun n : Nat => n) ⟨["old"]⟩).2 _ _ _ rfl
  · exact (report_single_write exState exPredictorNoTree (0 : Nat)
      (fun n : Nat => n) ⟨["old"]⟩).1 VPError.stopIteration rfl

/-- C9 induction kernel: iterating `generate_report` with the same external
artifacts succeeds at every count, the line buffer only grows — by one copy
of the generated lines per call — and after at least one call the file holds
the join of the accumulated buffer. -/
lemma generate_report_iter_accumulates {α β : Type} (p : Predictor) (X : α)
    (explain : α → β) (lines rec : List String) (events : List (RenderEvent α β)) :
    ∀ (n : Nat) (st : VPState) (fs : FS),
      generate_basic_part st p X explain = Except.ok (lines, rec, events) →
      ∃ stN fsN, generate_report_iter p X explain n st fs = Except.ok (stN, fsN) ∧
        stN.vpReportLines = st.vpReportLines ++ (List.replicate n lines).flatten ∧
        (0 < n → FS.current fsN =
          some (String.intercalate "\n"
            (st.vpReportLines ++ (List.replicate n lines).flatten))) := by
  intro n
  induction n with
  | zero =>
    intro st fs _h
    exact ⟨st, fs, rfl, by simp, fun h0 => absurd h0 (by simp)⟩
  | succ k ih =>
    intro st fs h
    have hgr : generate_report st p X explain fs =
        (Except.ok { st with vpReportLines := st.vpReportLines ++ lines },
         save_report (st.vpReportLines ++ lines) fs) := by
      unfold generate_report
      rw [h]
    have hstep : generate_report_iter p X explain (k + 1) st fs
        = generate_report_iter p X explain k
            { st with vpReportLines := st.vpReportLines ++ lines }
            (save_report (st.vpReportLines ++ lines) fs) := by
      conv =>
        lhs
        rw [generate_report_iter, hgr]
    have h' : generate_basic_part { st with vpReportLines := st.vpReportLines ++ lines }
        p X explain = Except.ok (lines, rec, events) := by
      rw [generate_basic_part_lines_congr]
      exact h
    obtain ⟨stN, fsN, hiter, hlines, hcur⟩ :=
      ih { st with vpReportLines := st.vpReportLines ++ lines }
        (save_report (st.vpReportLines ++ lines) fs) h'
    refine ⟨stN, fsN, by rw [hstep, hiter], ?_, ?_⟩
    · rw [hlines]
      simp [List.replicate_succ]
    · intro _hpos
      cases k with
      | zero =>
        have hfix : generate_report_iter p X explain 0
            { st with vpReportLines := st.vpReportLines ++ lines }
            (save_report (st.vpReportLines ++ lines) fs)
            = Except.ok ({ st with vpReportLines := st.vpReportLines ++ lines },
                save_report (st.vpReportLines ++ lines) fs) := rfl
        rw [hfix] at hiter
        injection hiter with hpair
        injection hpair with hst hfs
        rw [← hfs]
        simp [FS.current, save_report, List.replicate_succ]
      | succ k' =>
        have := hcur (Nat.succ_pos k')
        rw [this]
        simp [List.replicate_succ]

/-- C9: `vp_report_lines` is only appended to and never cleared, so `n`
successful `generate_report` calls on one instance leave `n` concatenated
copies of the generated report content in the buffer, and the written file
holds all of them, not one. -/
theorem vp_report_accumulates {α β : Type} (st : VPState) (p : Predictor) (X : α)
    (explain : α → β) (fs : FS) (lines rec : List String)
    (events : List (RenderEvent α β))
    (h : generate_basic_part st p X explain = Except.ok (lines, rec, events)) :
    ∀ n, ∃ stN fsN,
      generate_report_iter p X explain n st fs = Except.ok (stN, fsN) ∧
      stN.vpReportLines = st.vpReportLines ++ (List.replicate n lines).flatten ∧
      (0 < n → FS.current fsN =
        some (String.intercalate "\n"
          (st.vpReportLines ++ (List.replicate n lines).flatten))) :=
  fun n => generate_report_iter_accumulates p X explain lines rec events n st fs h

/-- C9 witness: two successful calls on the concrete instance leave two
copies of the report lines in the buffer and in the written file. -/
theorem vp_report_accumulates_witness :
    ∃ lines rec events,
      generate_basic_part exState exPredictor (0 : Nat) (fun n : Nat => n)
          = Except.ok (lines, rec, events) ∧
      ∃ st2 fs2,
        generate_report_iter exPredictor (0 : Nat) (fun n : Nat => n) 2 exState ⟨[]⟩
            = Except.ok (st2, fs2) ∧
        st2.vpReportLines = exState.vpReportLines ++ (List.replicate 2 lines).flatten ∧
        FS.current fs2 =
          some (String.intercalate "\n"
            (exState.vpReportLines ++ (List.replicate 2 lines).flatten)) := by
  refine ⟨_, _, _, rfl, ?_⟩
  obtain ⟨st2, fs2, h1, h2, h3⟩ :=
    vp_report_accumulates exState exPredictor (0 : Nat) (fun n : Nat => n)
      ⟨[]⟩ _ _ _ rfl 2
  exact ⟨st2, fs2, h1, h2, h3 (by decide)⟩

end ValuePredict
